import Mathlib

/-!
Verification development for the repository file serve-web.py, a small
static-file HTTP server. The script is straight-line module-level code:
two constants, a handler class delegating to the standard static handler,
a recursive directory creation, a bind, three status prints and a serve
loop.  We embed the filesystem effect, the printed output and the
control flow (bind success and interrupt arrival as oracle inputs) and
settle the specification claims against this embedding.
-/

namespace ServeWeb

/-- Constant from serve-web.py line 12: PORT = 8000. -/
def PORT : Nat := 8000

/-- Constant from serve-web.py line 13: SERVE_DIR = "dist". -/
def SERVE_DIR : String := "dist"

/-- The path components of SERVE_DIR (a single relative component). -/
def serveDirPath : List String := ["dist"]

/-- A filesystem state: the set of existing directories (as component
lists) and the existing files with their byte contents. -/
structure FS where
  dirs : List (List String)
  files : List (List String × List Nat)
deriving DecidableEq

/-- Creation of a single directory when absent; an existing directory is
left untouched (the exist_ok=True behaviour of os.makedirs). -/
def mkdirOne (dirs : List (List String)) (d : List String) : List (List String) :=
  if d ∈ dirs then dirs else dirs ++ [d]

/-- The chain of nonempty ancestors of a path, shortest first: the
directories os.makedirs creates recursively. -/
def pathAncestors : List String → List (List String)
  | [] => []
  | c :: cs => [c] :: (pathAncestors cs).map (fun q => c :: q)

/-- Embedding of os.makedirs(p, exist_ok=True) from serve-web.py line 19:
every missing ancestor of p is created, existing directories and all
files are left unchanged, and no error is raised when directories
already exist (the function is total). -/
def makedirs (fs : FS) (p : List String) : FS :=
  { fs with dirs := (pathAncestors p).foldl mkdirOne fs.dirs }

/-- Observable events of the module top level, in program order. -/
inductive Event where
  | makedirsCall : String → Event
  | bindAttempt : String → Nat → Event
  | printLine : String → Event
  | serveLoop : Event
  | closeListener : Event
deriving DecidableEq

/-- How a run of the process ends (or keeps running). -/
inductive Outcome where
  | serving : Outcome
  | exited : Nat → Outcome
  | unhandledExc : String → Outcome
deriving DecidableEq

/-- The filesystem, event trace and outcome of one run of the script. -/
structure RunResult where
  fs : FS
  trace : List Event
  outcome : Outcome
deriving DecidableEq

/-- First status line printed on line 22 of serve-web.py. -/
def line1 : String := "🌐 Serving at http://localhost:" ++ toString PORT

/-- Second status line printed on line 23 of serve-web.py. -/
def line2 : String := "📁 Serving directory: " ++ SERVE_DIR ++ "/"

/-- Third line printed on line 24 of serve-web.py. -/
def line3 : String := "Press Ctrl+C to stop"

/-- Embedding of the module top level of serve-web.py (lines 19 to 25).
The script runs makedirs, then constructs the TCPServer, which binds
host "" on PORT; bindOk models whether that bind succeeds.  On success
the with-statement body prints three lines and enters serve_forever;
interrupted models whether a KeyboardInterrupt arrives during the loop.
The script installs no exception handler, so a failed bind raises
OSError out of the program, and an interrupt raises KeyboardInterrupt
out of the program after the with-statement closes the listener. -/
def scriptRun (fs0 : FS) (bindOk interrupted : Bool) : RunResult :=
  let fs1 := makedirs fs0 serveDirPath
  if bindOk then
    if interrupted then
      { fs := fs1
        trace := [Event.makedirsCall SERVE_DIR, Event.bindAttempt "" PORT,
                  Event.printLine line1, Event.printLine line2, Event.printLine line3,
                  Event.serveLoop, Event.closeListener]
        outcome := Outcome.unhandledExc "KeyboardInterrupt" }
    else
      { fs := fs1
        trace := [Event.makedirsCall SERVE_DIR, Event.bindAttempt "" PORT,
                  Event.printLine line1, Event.printLine line2, Event.printLine line3,
                  Event.serveLoop]
        outcome := Outcome.serving }
  else
    { fs := fs1
      trace := [Event.makedirsCall SERVE_DIR, Event.bindAttempt "" PORT]
      outcome := Outcome.unhandledExc "OSError" }

/-- The lines written to standard output, in order, within a trace. -/
def printedLines (tr : List Event) : List String :=
  tr.filterMap (fun e => match e with
    | Event.printLine s => some s
    | _ => none)

/-- Whether the run ended with an exception escaping the program. -/
def unhandledError : Outcome → Bool
  | Outcome.unhandledExc _ => true
  | _ => false

/-- Modelled from the spec and the language runtime contract: a process
whose main module terminates with an unhandled exception exits with a
nonzero status; only a normal termination gives exit status 0. -/
def processExitsZero : Outcome → Bool
  | Outcome.exited 0 => true
  | _ => false

/-- The number of bind attempts in a trace (for the no-retry property). -/
def countBinds (tr : List Event) : Nat :=
  tr.countP (fun e => match e with
    | Event.bindAttempt _ _ => true
    | _ => false)

/-- Modelled from the spec: binding the empty host string places the
listener on all local interfaces, not only loopback. -/
def bindsAllInterfaces (host : String) : Bool := host == ""

/-- Look up the byte contents of a file at a path. -/
def lookupFile (fs : FS) (p : List String) : Option (List Nat) :=
  (fs.files.find? (fun e => e.1 == p)).map (fun e => e.2)

/-- Modelled from the spec: the standard static handler
(http.server.SimpleHTTPRequestHandler, library code outside this
repository) resolves the request path under the root directory and
returns the exact file bytes with status 200 when the file exists, and
a not-found response with status 404 otherwise. -/
def handleGet (fs : FS) (root : List String) (req : List String) : Nat × List Nat :=
  match lookupFile fs (root ++ req) with
  | some bytes => (200, bytes)
  | none => (404, [])

/-- The Handler class of serve-web.py lines 15 to 17: the standard
static handler constructed with directory=SERVE_DIR. -/
def handlerRespond (fs : FS) (req : List String) : Nat × List Nat :=
  handleGet fs serveDirPath req

/-- Modelled from the spec: the network protocol named by the spec for
the standard handler; the protocol version is decided by library code
outside this repository. -/
def protocolVersion : String := "HTTP/1.1"

/-- A directory just created is present. -/
theorem mem_mkdirOne (dirs : List (List String)) (d : List String) :
    d ∈ mkdirOne dirs d := by
  unfold mkdirOne
  split
  · assumption
  · simp

/-- Creating one directory preserves the directories already present. -/
theorem mem_mkdirOne_of_mem {dirs : List (List String)} {d e : List String}
    (h : e ∈ dirs) : e ∈ mkdirOne dirs d := by
  unfold mkdirOne
  split
  · exact h
  · simp [h]

/-- Folding directory creation preserves the directories already present. -/
theorem mem_foldl_mkdirOne_of_mem {e : List String} (ps : List (List String))
    (dirs : List (List String)) (h : e ∈ dirs) :
    e ∈ ps.foldl mkdirOne dirs := by
  induction ps generalizing dirs with
  | nil => exact h
  | cons q qs ih =>
    simp only [List.foldl_cons]
    exact ih _ (mem_mkdirOne_of_mem h)

/-- Every directory in the created list is present afterwards. -/
theorem mem_foldl_mkdirOne {p : List String} (ps : List (List String))
    (dirs : List (List String)) (h : p ∈ ps) :
    p ∈ ps.foldl mkdirOne dirs := by
  induction ps generalizing dirs with
  | nil => cases h
  | cons q qs ih =>
    simp only [List.foldl_cons]
    cases h with
    | head => exact mem_foldl_mkdirOne_of_mem qs _ (mem_mkdirOne _ _)
    | tail _ hq => exact ih _ hq

/-- Creating directories that all already exist changes nothing. -/
theorem foldl_mkdirOne_eq_of_all_mem (ps : List (List String))
    (dirs : List (List String)) (h : ∀ p ∈ ps, p ∈ dirs) :
    ps.foldl mkdirOne dirs = dirs := by
  induction ps with
  | nil => rfl
  | cons q qs ih =>
    simp only [List.foldl_cons]
    have hq : q ∈ dirs := h q (by simp)
    have hone : mkdirOne dirs q = dirs := by
      unfold mkdirOne
      simp [hq]
    rw [hone]
    exact ih (fun p hp => h p (by simp [hp]))

/-- Recursive directory creation with exist_ok is idempotent. -/
theorem makedirs_idem (fs : FS) (p : List String) :
    makedirs (makedirs fs p) p = makedirs fs p := by
  cases fs with
  | mk ds fls =>
    simp only [makedirs]
    congr 1
    exact foldl_mkdirOne_eq_of_all_mem _ _ (fun q hq => mem_foldl_mkdirOne _ _ hq)

/-- After makedirs the serving directory exists. -/
theorem serveDir_mem_makedirs (fs : FS) :
    serveDirPath ∈ (makedirs fs serveDirPath).dirs := by
  unfold makedirs
  exact mem_foldl_mkdirOne _ _ (by decide)

/-- Claim C1, counterexample: the claim says a successful start prints
exactly two lines, but on a concrete run from the empty filesystem the
script prints three lines (the two status lines and the Ctrl+C hint),
so its printed output does not have length two. -/
theorem C1_counterexample :
    ¬ (printedLines (scriptRun ⟨[], []⟩ true false).trace).length = 2 := by
  decide

/-- Claim C1, amended: on successful start, before entering the accept
loop, the server prints exactly three lines and nothing else: one
containing the port number 8000, one containing the directory name
dist, and a fixed hint that Ctrl+C stops the server; all three prints
precede the serve loop in the trace. -/
theorem C1_amended_printsThreeLines (fs0 : FS) :
    (scriptRun fs0 true false).trace
      = [Event.makedirsCall SERVE_DIR, Event.bindAttempt "" PORT,
         Event.printLine line1, Event.printLine line2, Event.printLine line3,
         Event.serveLoop] ∧
    printedLines (scriptRun fs0 true false).trace = [line1, line2, line3] ∧
    (∃ a b, line1 = a ++ "8000" ++ b) ∧
    (∃ a b, line2 = a ++ "dist" ++ b) ∧
    line3 = "Press Ctrl+C to stop" := by
  refine ⟨rfl, rfl, ⟨"🌐 Serving at http://localhost:", "", ?_⟩,
    ⟨"📁 Serving directory: ", "/", ?_⟩, rfl⟩ <;> rfl

/-- Claim C2, counterexample: the claim says an interrupt leads to a
clean exit with code 0 and no unhandled error, but on a concrete
interrupted run the outcome is not an exit with code 0 and the
KeyboardInterrupt escapes unhandled. -/
theorem C2_counterexample :
    ¬ ((scriptRun ⟨[], []⟩ true true).outcome = Outcome.exited 0 ∧
       unhandledError (scriptRun ⟨[], []⟩ true true).outcome = false) := by
  decide

/-- Claim C2, amended: on interrupt the server stops accepting new
connections (the with-statement closes the listener after the serve
loop) and the process terminates, but the KeyboardInterrupt propagates
out of the program unhandled, so the process exit status is nonzero
rather than 0. -/
theorem C2_amended_interruptUnhandled (fs0 : FS) :
    (scriptRun fs0 true true).outcome = Outcome.unhandledExc "KeyboardInterrupt" ∧
    unhandledError (scriptRun fs0 true true).outcome = true ∧
    processExitsZero (scriptRun fs0 true true).outcome = false ∧
    (scriptRun fs0 true true).trace
      = [Event.makedirsCall SERVE_DIR, Event.bindAttempt "" PORT,
         Event.printLine line1, Event.printLine line2, Event.printLine line3,
         Event.serveLoop, Event.closeListener] := by
  exact ⟨rfl, rfl, rfl, rfl⟩

/-- Claim C3: for every start, the root directory exists in the
resulting filesystem (created when absent, untouched files either way),
the makedirs call precedes the bind attempt in the trace, and a start
with a successful bind reaches the serve loop no matter the initial
filesystem, in particular when the directory already existed. -/
theorem C3_dirExistsBeforeBind (fs0 : FS) (bindOk interrupted : Bool) :
    serveDirPath ∈ (scriptRun fs0 bindOk interrupted).fs.dirs ∧
    (scriptRun fs0 bindOk interrupted).trace.take 2
      = [Event.makedirsCall SERVE_DIR, Event.bindAttempt "" PORT] ∧
    (scriptRun fs0 bindOk interrupted).fs.files = fs0.files ∧
    (scriptRun fs0 true false).outcome = Outcome.serving := by
  refine ⟨?_, ?_, ?_, rfl⟩
  · have h := serveDir_mem_makedirs fs0
    cases bindOk <;> cases interrupted <;> simpa [scriptRun] using h
  · cases bindOk <;> cases interrupted <;> rfl
  · cases bindOk <;> cases interrupted <;> rfl

/-- Claim C4: a GET request whose path resolves to an existing file
under the root directory is answered with status 200 and exactly the
bytes of that file. -/
theorem C4_existingFileServed (fs : FS) (req : List String) (bytes : List Nat)
    (h : lookupFile fs (serveDirPath ++ req) = some bytes) :
    handlerRespond fs req = (200, bytes) := by
  unfold handlerRespond handleGet
  rw [h]

/-- Witness for C4 at a concrete filesystem holding one file. -/
theorem C4_witness :
    lookupFile ⟨[["dist"]], [(["dist", "index.html"], [60, 104, 49, 62])]⟩
        (serveDirPath ++ ["index.html"]) = some [60, 104, 49, 62] ∧
    handlerRespond ⟨[["dist"]], [(["dist", "index.html"], [60, 104, 49, 62])]⟩
        ["index.html"] = (200, [60, 104, 49, 62]) := by
  constructor
  · decide
  · exact C4_existingFileServed _ _ _ (by decide)

/-- Claim C5: a GET request whose path resolves to no file under the
root directory is answered with status 404. -/
theorem C5_missingFile404 (fs : FS) (req : List String)
    (h : lookupFile fs (serveDirPath ++ req) = none) :
    (handlerRespond fs req).1 = 404 := by
  unfold handlerRespond handleGet
  rw [h]

/-- Witness for C5 at a concrete filesystem with no files. -/
theorem C5_witness :
    lookupFile ⟨[["dist"]], []⟩ (serveDirPath ++ ["missing.html"]) = none ∧
    (handlerRespond ⟨[["dist"]], []⟩ ["missing.html"]).1 = 404 := by
  constructor
  · decide
  · exact C5_missingFile404 _ _ (by decide)

/-- Claim C6: the server uses fixed port 8000 and fixed directory dist,
the directory is a relative path (resolved against the working
directory), the protocol is the plain HTTP the spec names, and the
handler of the script is exactly the static handler rooted at dist. -/
theorem C6_fixedPortAndDir :
    PORT = 8000 ∧ SERVE_DIR = "dist" ∧
    ¬ SERVE_DIR.data.head? = some '/' ∧
    protocolVersion = "HTTP/1.1" ∧
    ∀ fs req, handlerRespond fs req = handleGet fs serveDirPath req := by
  exact ⟨rfl, rfl, by decide, rfl, fun _ _ => rfl⟩

/-- Claim C7: a successful start performs exactly one bind attempt, on
host "" (all local interfaces) and port 8000, and the serve loop that
accepts connections comes only after the bind and the prints. -/
theorem C7_bindsAllInterfacesThenServes (fs0 : FS) :
    (scriptRun fs0 true false).trace
      = [Event.makedirsCall SERVE_DIR, Event.bindAttempt "" PORT,
         Event.printLine line1, Event.printLine line2, Event.printLine line3,
         Event.serveLoop] ∧
    countBinds (scriptRun fs0 true false).trace = 1 ∧
    bindsAllInterfaces "" = true := by
  exact ⟨rfl, rfl, rfl⟩

/-- Claim C8: a failed bind is fatal: the OSError escapes the program
unhandled (surfacing on the console), the process exit status is
nonzero, and no second bind attempt is made. -/
theorem C8_bindFailureFatal (fs0 : FS) (interrupted : Bool) :
    (scriptRun fs0 false interrupted).outcome = Outcome.unhandledExc "OSError" ∧
    unhandledError (scriptRun fs0 false interrupted).outcome = true ∧
    processExitsZero (scriptRun fs0 false interrupted).outcome = false ∧
    countBinds (scriptRun fs0 false interrupted).trace = 1 := by
  exact ⟨rfl, rfl, rfl, rfl⟩

/-- Claim C9: directory creation with exist_ok is harmless and
idempotent: creating twice equals creating once, the files are never
touched, every directory already present stays present, and running the
startup filesystem effect twice yields the same filesystem as running
it once. -/
theorem C9_makedirsIdempotent (fs : FS) (p : List String) :
    makedirs (makedirs fs p) p = makedirs fs p ∧
    (makedirs fs p).files = fs.files ∧
    (∀ d ∈ fs.dirs, d ∈ (makedirs fs p).dirs) ∧
    (scriptRun (scriptRun fs true false).fs true false).fs
      = (scriptRun fs true false).fs := by
  refine ⟨makedirs_idem fs p, rfl, fun d hd => mem_foldl_mkdirOne_of_mem _ _ hd, ?_⟩
  exact makedirs_idem fs serveDirPath

/-- Claim C10: when the bind fails, the root directory has nevertheless
already been created (it exists in the resulting filesystem), and no
status line has been printed: the trace holds exactly the makedirs call
followed by the failed bind attempt. -/
theorem C10_bindFailureAfterMkdirNoPrint (fs0 : FS) (interrupted : Bool) :
    serveDirPath ∈ (scriptRun fs0 false interrupted).fs.dirs ∧
    (scriptRun fs0 false interrupted).trace
      = [Event.makedirsCall SERVE_DIR, Event.bindAttempt "" PORT] ∧
    printedLines (scriptRun fs0 false interrupted).trace = [] := by
  exact ⟨serveDir_mem_makedirs fs0, rfl, rfl⟩

end ServeWeb
